import Mathlib

/-!
Shallow embedding of the todo service defined by `src/index.js` and by the
second source file `src/unnamed/part_000`.

State is made explicit: the todos collection is a `List Todo`, the users
collection a `List User`, and the persisted file content an `Option String`
(`none` = the file is absent).  External library calls are parameters:
`jwt.verify` becomes `verify : String → Bool`, `jwt.sign` becomes
`sign : String → String → String` (subject id and username to token),
`JSON.parse` (composed with reading the array) becomes
`parse : String → Option _` where `none` models a parse error, and
`JSON.stringify` becomes `serialize`.  The random id generated by
`Math.random().toString(36)` is passed in as the `newId` argument.
-/

/-- A todo item as stored in todos.json: `{id, text, completed}`. -/
structure Todo where
  id : String
  text : String
  completed : Bool
  deriving Repr, DecidableEq

/-- A user record as stored in users.json: `{id, username, password}`. -/
structure User where
  id : String
  username : String
  password : String
  deriving Repr, DecidableEq

/-- A JSON response body as produced by the handlers of `src/index.js`. -/
inductive Body where
  | msg (message : String)
  | todoItem (t : Todo)
  | todoList (ts : List Todo)
  | authOk (token : String) (username : String)
  | empty
  deriving Repr, DecidableEq

/-- JS truthiness of an optional string request-body field: a missing field
and the empty string are both falsy (`!username`, `!password`, `!text`). -/
def strFalsy : Option String → Bool
  | none => true
  | some s => s == ""

/-- JS `String.prototype.startsWith`, computed structurally over the
character lists of the strings. -/
def strStartsWith (s pre : String) : Bool :=
  List.isPrefixOf pre.data s.data

/-- JS `String.prototype.slice(n)` for nonnegative `n`, computed
structurally over the character list of the string. -/
def strDrop (s : String) (n : Nat) : String :=
  ⟨s.data.drop n⟩

/-- JS `String.prototype.trim`, computed structurally over the character
list of the string: strip leading and trailing whitespace. -/
def strTrim (s : String) : String :=
  ⟨((s.data.dropWhile Char.isWhitespace).reverse.dropWhile
      Char.isWhitespace).reverse⟩

/-- Observable outcome of a todos route: HTTP status, JSON body, the todos
list persisted afterwards, and whether `writeTodos` was called. -/
structure HandlerResult where
  status : Nat
  body : Body
  todos : List Todo
  wrote : Bool
  deriving Repr, DecidableEq

/-- Observable outcome of an auth route: HTTP status, JSON body, the users
list persisted afterwards, and whether `writeUsers` was called. -/
structure UserResult where
  status : Nat
  body : Body
  users : List User
  wrote : Bool
  deriving Repr, DecidableEq

/-- `readTodos` of `src/index.js`, acting on the content of todos.json
(`none` = the file does not exist).  Returns the todos list obtained and
the file content afterwards: an absent file is created as `"[]"`, a blank
file is left alone, content that `parse` rejects is rewritten to `"[]"`. -/
def readTodos (parse : String → Option (List Todo)) :
    Option String → List Todo × Option String
  | none => ([], some "[]")
  | some data =>
    if strTrim data == "" then ([], some data)
    else
      match parse data with
      | some v => (v, some data)
      | none => ([], some "[]")

/-- `readUsers` of `src/index.js`, the same logic over users.json. -/
def readUsers (parse : String → Option (List User)) :
    Option String → List User × Option String
  | none => ([], some "[]")
  | some data =>
    if strTrim data == "" then ([], some data)
    else
      match parse data with
      | some v => (v, some data)
      | none => ([], some "[]")

/-- Token extraction of the `auth` middleware in `src/index.js`:
`authHeader || ""`, then `slice(7)` when the header starts with
`"Bearer "`, otherwise `null`. -/
def extractToken (header : Option String) : Option String :=
  let h := header.getD ""
  if strStartsWith h "Bearer " then some (strDrop h 7) else none

/-- The `auth` middleware of `src/index.js`: `some (status, body)` when the
request is rejected, `none` when it passes through to the route handler.
A `null` or empty token yields 401 "Missing Authorization header"; a token
that `jwt.verify` (modelled by `verify`) rejects yields 401
"Invalid or expired token". -/
def auth (verify : String → Bool) (header : Option String) :
    Option (Nat × Body) :=
  match extractToken header with
  | none => some (401, Body.msg "Missing Authorization header")
  | some tok =>
    if tok == "" then some (401, Body.msg "Missing Authorization header")
    else if verify tok then none
    else some (401, Body.msg "Invalid or expired token")

/-- Handler body of `app.get("/todos")` in `src/index.js` (after `auth`):
respond 200 with the whole stored list, no write. -/
def getTodos (todos : List Todo) : HandlerResult :=
  ⟨200, Body.todoList todos, todos, false⟩

/-- Handler body of `app.post("/todos")` in `src/index.js` (after `auth`):
reject falsy text with 400, otherwise append `{id, text, completed: false}`
and respond 201 with the new todo. -/
def postTodos (todos : List Todo) (text : Option String) (newId : String) :
    HandlerResult :=
  if strFalsy text then
    ⟨400, Body.msg "Todo text is required", todos, false⟩
  else
    let newTodo : Todo := ⟨newId, text.getD "", false⟩
    ⟨201, Body.todoItem newTodo, todos ++ [newTodo], true⟩

/-- Handler body of `app.delete("/todos/:id")` in `src/index.js` (after
`auth`): filter out the id; if the length is unchanged respond 404 without
writing, otherwise persist the filtered list and respond 204. -/
def deleteTodo (todos : List Todo) (id : String) : HandlerResult :=
  let remaining := todos.filter (fun t => t.id != id)
  if remaining.length = todos.length then
    ⟨404, Body.msg "Todo not found", todos, false⟩
  else
    ⟨204, Body.empty, remaining, true⟩

/-- `app.get("/todos")` of `src/index.js` as routed: `auth` then handler. -/
def getTodosRoute (verify : String → Bool) (header : Option String)
    (todos : List Todo) : HandlerResult :=
  match auth verify header with
  | some (s, b) => ⟨s, b, todos, false⟩
  | none => getTodos todos

/-- `app.post("/todos")` of `src/index.js` as routed: `auth` then handler. -/
def postTodosRoute (verify : String → Bool) (header : Option String)
    (todos : List Todo) (text : Option String) (newId : String) :
    HandlerResult :=
  match auth verify header with
  | some (s, b) => ⟨s, b, todos, false⟩
  | none => postTodos todos text newId

/-- `app.delete("/todos/:id")` of `src/index.js` as routed: `auth` then
handler. -/
def deleteTodoRoute (verify : String → Bool) (header : Option String)
    (todos : List Todo) (id : String) : HandlerResult :=
  match auth verify header with
  | some (s, b) => ⟨s, b, todos, false⟩
  | none => deleteTodo todos id

/-- Handler of `app.post("/auth/signup")` in `src/index.js` over the stored
users list: falsy username or password gives 400; an existing username gives
409; otherwise the user is appended, persisted, and 201 `{token, username}`
is returned with `token = jwt.sign({sub: newId, username})`. -/
def signup (sign : String → String → String) (users : List User)
    (username password : Option String) (newId : String) : UserResult :=
  if strFalsy username || strFalsy password then
    ⟨400, Body.msg "username and password are required", users, false⟩
  else
    let uname := username.getD ""
    if users.any (fun u => u.username == uname) then
      ⟨409, Body.msg "username already exists", users, false⟩
    else
      let newUser : User := ⟨newId, uname, password.getD ""⟩
      ⟨201, Body.authOk (sign newId uname) uname, users ++ [newUser], true⟩

/-- Handler of `app.post("/auth/login")` in `src/index.js` over the stored
users list: falsy username or password gives 400; a stored user matching
both username and password gives 200 `{token, username}`; otherwise 401
"invalid credentials".  Login never writes. -/
def login (sign : String → String → String) (users : List User)
    (username password : Option String) : UserResult :=
  if strFalsy username || strFalsy password then
    ⟨400, Body.msg "username and password are required", users, false⟩
  else
    let uname := username.getD ""
    let pwd := password.getD ""
    match users.find? (fun u => u.username == uname && u.password == pwd) with
    | none => ⟨401, Body.msg "invalid credentials", users, false⟩
    | some user => ⟨200, Body.authOk (sign user.id uname) uname, users, false⟩

/-- `app.post("/todos")` of `src/index.js` at the file level (after `auth`):
validation runs before `readTodos`, so a 400 leaves the file exactly as it
was; on success the full list is rewritten via `serialize`. -/
def postTodosFile (parse : String → Option (List Todo))
    (serialize : List Todo → String) (file : Option String)
    (text : Option String) (newId : String) : Nat × Body × Option String :=
  if strFalsy text then (400, Body.msg "Todo text is required", file)
  else
    let r := readTodos parse file
    let newTodo : Todo := ⟨newId, text.getD "", false⟩
    (201, Body.todoItem newTodo, some (serialize (r.1 ++ [newTodo])))

/-- `app.post("/auth/signup")` of `src/index.js` at the file level:
validation runs before `readUsers`, so a 400 leaves users.json exactly as
it was. -/
def signupFile (parse : String → Option (List User))
    (serialize : List User → String) (sign : String → String → String)
    (file : Option String) (username password : Option String)
    (newId : String) : Nat × Body × Option String :=
  if strFalsy username || strFalsy password then
    (400, Body.msg "username and password are required", file)
  else
    let r := readUsers parse file
    let uname := username.getD ""
    if r.1.any (fun u => u.username == uname) then
      (409, Body.msg "username already exists", r.2)
    else
      let newUser : User := ⟨newId, uname, password.getD ""⟩
      (201, Body.authOk (sign newId uname) uname,
        some (serialize (r.1 ++ [newUser])))

/-- `app.post("/auth/login")` of `src/index.js` at the file level:
validation runs before `readUsers`, so a 400 leaves users.json exactly as
it was. -/
def loginFile (parse : String → Option (List User))
    (sign : String → String → String) (file : Option String)
    (username password : Option String) : Nat × Body × Option String :=
  if strFalsy username || strFalsy password then
    (400, Body.msg "username and password are required", file)
  else
    let r := readUsers parse file
    let uname := username.getD ""
    let pwd := password.getD ""
    match r.1.find? (fun u => u.username == uname && u.password == pwd) with
    | none => (401, Body.msg "invalid credentials", r.2)
    | some user => (200, Body.authOk (sign user.id uname) uname, r.2)

namespace Part000

/-- `readTodos` of `src/unnamed/part_000` — textually the same logic as in
`src/index.js`. -/
def readTodos (parse : String → Option (List Todo)) :
    Option String → List Todo × Option String
  | none => ([], some "[]")
  | some data =>
    if strTrim data == "" then ([], some data)
    else
      match parse data with
      | some v => (v, some data)
      | none => ([], some "[]")

/-- Handler of `app.get('/todos')` in `src/unnamed/part_000`: no auth
middleware is attached, the handler always serves the list. -/
def getTodos (todos : List Todo) : HandlerResult :=
  ⟨200, Body.todoList todos, todos, false⟩

/-- Handler of `app.post('/todos')` in `src/unnamed/part_000`: no auth
middleware is attached. -/
def postTodos (todos : List Todo) (text : Option String) (newId : String) :
    HandlerResult :=
  if strFalsy text then
    ⟨400, Body.msg "Todo text is required", todos, false⟩
  else
    let newTodo : Todo := ⟨newId, text.getD "", false⟩
    ⟨201, Body.todoItem newTodo, todos ++ [newTodo], true⟩

/-- Handler of `app.delete('/todos/:id')` in `src/unnamed/part_000`: no auth
middleware is attached. -/
def deleteTodo (todos : List Todo) (id : String) : HandlerResult :=
  let remaining := todos.filter (fun t => t.id != id)
  if remaining.length = todos.length then
    ⟨404, Body.msg "Todo not found", todos, false⟩
  else
    ⟨204, Body.empty, remaining, true⟩

end Part000

/-- A concrete stand-in for `jwt.sign`, used to evaluate the model on
closed inputs. -/
def signD : String → String → String := fun _ u => u ++ ".tok"

/-- A concrete stand-in for `JSON.parse` on todos that fails on every
content, used to evaluate the model on closed inputs. -/
def parseFailT : String → Option (List Todo) := fun _ => none

/-- A concrete stand-in for `JSON.parse` on users that fails on every
content, used to evaluate the model on closed inputs. -/
def parseFailU : String → Option (List User) := fun _ => none

/-- A concrete stand-in for `JSON.stringify` on todos, used to evaluate the
model on closed inputs. -/
def serializeT : List Todo → String := fun ts => toString (repr ts)

/-- A concrete stand-in for `JSON.stringify` on users, used to evaluate the
model on closed inputs. -/
def serializeU : List User → String := fun us => toString (repr us)

/-- A concrete stand-in for `jwt.verify` that accepts every token, used to
evaluate the model on closed inputs. -/
def verifyAll : String → Bool := fun _ => true

/-- Every rejection of the auth middleware for a header that is absent, does
not start with "Bearer ", or carries a token the verifier rejects, is a 401
response. -/
theorem auth_rejects_401 (verify : String → Bool) (header : Option String)
    (h : header = none ∨ strStartsWith (header.getD "") "Bearer " = false ∨
      ∃ tok, extractToken header = some tok ∧ verify tok = false) :
    ∃ b, auth verify header = some (401, b) := by
  rcases h with h | h | ⟨tok, htok, hv⟩
  · subst h
    have hext : extractToken none = none := by decide
    exact ⟨Body.msg "Missing Authorization header", by simp [auth, hext]⟩
  · have hext : extractToken header = none := by
      unfold extractToken
      simp [h]
    exact ⟨Body.msg "Missing Authorization header", by simp [auth, hext]⟩
  · by_cases he : tok == ""
    · exact ⟨Body.msg "Missing Authorization header",
        by simp [auth, htok, he]⟩
    · exact ⟨Body.msg "Invalid or expired token",
        by simp [auth, htok, he, hv]⟩

/-- C1: for every todos state, an authorized POST /todos with a non-empty
text `t` responds 201 with the todo `{id, text: t, completed: false}`, and
a subsequent GET /todos returns the stored list, which contains exactly
that todo. -/
theorem c1_post_then_get (verify : String → Bool) (header : Option String)
    (todos : List Todo) (t newId : String)
    (hauth : auth verify header = none) (ht : t ≠ "") :
    (postTodosRoute verify header todos (some t) newId).status = 201 ∧
    (postTodosRoute verify header todos (some t) newId).body =
      Body.todoItem ⟨newId, t, false⟩ ∧
    (getTodosRoute verify header
      (postTodosRoute verify header todos (some t) newId).todos).status =
        200 ∧
    (getTodosRoute verify header
      (postTodosRoute verify header todos (some t) newId).todos).body =
        Body.todoList (todos ++ [⟨newId, t, false⟩]) ∧
    Todo.mk newId t false ∈
      (postTodosRoute verify header todos (some t) newId).todos := by
  have hfalsy : strFalsy (some t) = false := by
    simp [strFalsy, ht]
  simp [postTodosRoute, getTodosRoute, hauth, postTodos, getTodos, hfalsy]

/-- Witness for C1 at a concrete input: an all-accepting verifier, a
well-formed bearer header, the empty todos store and the text "buy milk". -/
theorem c1_post_then_get_witness :
    (postTodosRoute verifyAll (some "Bearer tk") [] (some "buy milk")
      "id1").status = 201 ∧
    (postTodosRoute verifyAll (some "Bearer tk") [] (some "buy milk")
      "id1").body = Body.todoItem ⟨"id1", "buy milk", false⟩ ∧
    (getTodosRoute verifyAll (some "Bearer tk")
      (postTodosRoute verifyAll (some "Bearer tk") [] (some "buy milk")
        "id1").todos).status = 200 ∧
    (getTodosRoute verifyAll (some "Bearer tk")
      (postTodosRoute verifyAll (some "Bearer tk") [] (some "buy milk")
        "id1").todos).body =
      Body.todoList ([] ++ [⟨"id1", "buy milk", false⟩]) ∧
    Todo.mk "id1" "buy milk" false ∈
      (postTodosRoute verifyAll (some "Bearer tk") [] (some "buy milk")
        "id1").todos :=
  c1_post_then_get verifyAll (some "Bearer tk") [] "buy milk" "id1"
    (by decide) (by decide)

/-- C2: DELETE /todos/:id answers 404 and leaves the stored list unchanged,
performing no write, when no stored todo carries the requested id; it
answers 204 when some stored todo carries the id. -/
theorem c2_delete_404_on_missing (todos : List Todo) (id : String) :
    ((∀ t ∈ todos, t.id ≠ id) →
      deleteTodo todos id =
        ⟨404, Body.msg "Todo not found", todos, false⟩) ∧
    ((∃ t ∈ todos, t.id = id) → (deleteTodo todos id).status = 204) := by
  constructor
  · intro h
    have hfilter : todos.filter (fun t => t.id != id) = todos :=
      List.filter_eq_self.mpr (by
        intro a ha
        simpa using h a ha)
    simp [deleteTodo, hfilter]
  · rintro ⟨t, ht, hid⟩
    have hlt : (todos.filter (fun t => t.id != id)).length < todos.length :=
      List.length_filter_lt_length_iff_exists.mpr ⟨t, ht, by simp [hid]⟩
    simp [deleteTodo, Nat.ne_of_lt hlt]

/-- Witness for C2 at concrete inputs: deleting the absent id "b" from a
one-todo store answers 404 and keeps the store; deleting the present id "a"
answers 204. -/
theorem c2_delete_404_on_missing_witness :
    deleteTodo [⟨"a", "x", false⟩] "b" =
      ⟨404, Body.msg "Todo not found", [⟨"a", "x", false⟩], false⟩ ∧
    (deleteTodo [⟨"a", "x", false⟩] "a").status = 204 :=
  ⟨(c2_delete_404_on_missing [⟨"a", "x", false⟩] "b").1 (by decide),
   (c2_delete_404_on_missing [⟨"a", "x", false⟩] "a").2
     ⟨⟨"a", "x", false⟩, by decide⟩⟩

/-- C5: every request to the authenticated GET /todos, POST /todos or
DELETE /todos/:id route whose Authorization header is absent, does not start
with "Bearer ", or carries a token the verifier rejects, is answered 401,
and the todos state is unchanged with no write. -/
theorem c5_unauthorized_401 (verify : String → Bool) (header : Option String)
    (todos : List Todo) (text : Option String) (newId id : String)
    (h : header = none ∨ strStartsWith (header.getD "") "Bearer " = false ∨
      ∃ tok, extractToken header = some tok ∧ verify tok = false) :
    (getTodosRoute verify header todos).status = 401 ∧
    (getTodosRoute verify header todos).todos = todos ∧
    (getTodosRoute verify header todos).wrote = false ∧
    (postTodosRoute verify header todos text newId).status = 401 ∧
    (postTodosRoute verify header todos text newId).todos = todos ∧
    (postTodosRoute verify header todos text newId).wrote = false ∧
    (deleteTodoRoute verify header todos id).status = 401 ∧
    (deleteTodoRoute verify header todos id).todos = todos ∧
    (deleteTodoRoute verify header todos id).wrote = false := by
  obtain ⟨b, hb⟩ := auth_rejects_401 verify header h
  simp [getTodosRoute, postTodosRoute, deleteTodoRoute, hb]

/-- Witness for C5 at a concrete input: a request with no Authorization
header against a one-todo store, under an all-accepting verifier. -/
theorem c5_unauthorized_401_witness :
    (getTodosRoute verifyAll none [⟨"a", "x", false⟩]).status = 401 ∧
    (getTodosRoute verifyAll none [⟨"a", "x", false⟩]).todos =
      [⟨"a", "x", false⟩] ∧
    (getTodosRoute verifyAll none [⟨"a", "x", false⟩]).wrote = false ∧
    (postTodosRoute verifyAll none [⟨"a", "x", false⟩] (some "y")
      "i").status = 401 ∧
    (postTodosRoute verifyAll none [⟨"a", "x", false⟩] (some "y")
      "i").todos = [⟨"a", "x", false⟩] ∧
    (postTodosRoute verifyAll none [⟨"a", "x", false⟩] (some "y")
      "i").wrote = false ∧
    (deleteTodoRoute verifyAll none [⟨"a", "x", false⟩] "a").status = 401 ∧
    (deleteTodoRoute verifyAll none [⟨"a", "x", false⟩] "a").todos =
      [⟨"a", "x", false⟩] ∧
    (deleteTodoRoute verifyAll none [⟨"a", "x", false⟩] "a").wrote = false :=
  c5_unauthorized_401 verifyAll none [⟨"a", "x", false⟩] (some "y") "i" "a"
    (Or.inl rfl)

/-- Counterexample to C3 as stated: with no stored users the username "a"
is fresh and the password field is present (the empty string), yet signup
answers 400 and appends no user instead of succeeding with
`{token, username}`. -/
theorem c3_counterexample :
    (∀ u ∈ ([] : List User), u.username ≠ "a") ∧
    (signup signD [] (some "a") (some "") "i1").status = 400 ∧
    (signup signD [] (some "a") (some "") "i1").users = [] ∧
    (signup signD [] (some "a") (some "") "i1").wrote = false := by
  decide

/-- C3 amended: every signup preserves pairwise-distinct stored usernames;
a signup whose username already occurs in the store adds no user and writes
nothing; and a fresh non-empty username with a non-empty password present
appends exactly the new user and answers 201 `{token, username}`. -/
theorem c3_signup_unique (sign : String → String → String)
    (users : List User) (username password : Option String)
    (newId : String) :
    (List.Pairwise (fun a b : User => a.username ≠ b.username) users →
      List.Pairwise (fun a b : User => a.username ≠ b.username)
        (signup sign users username password newId).users) ∧
    ((∃ u ∈ users, u.username = username.getD "") →
      (signup sign users username password newId).users = users ∧
      (signup sign users username password newId).wrote = false) ∧
    (∀ uname pwd : String, username = some uname → password = some pwd →
      uname ≠ "" → pwd ≠ "" → (∀ u ∈ users, u.username ≠ uname) →
      signup sign users username password newId =
        ⟨201, Body.authOk (sign newId uname) uname,
          users ++ [⟨newId, uname, pwd⟩], true⟩) := by
  refine ⟨?_, ?_, ?_⟩
  · intro hp
    by_cases hval : (strFalsy username || strFalsy password) = true
    · simpa [signup, hval] using hp
    · by_cases hdup : users.any (fun u => u.username == username.getD "")
      · simpa [signup, hval, hdup] using hp
      · have hfresh : ∀ u ∈ users, u.username ≠ username.getD "" := by
          intro u hu
          have := List.any_eq_false.mp (Bool.not_eq_true _ ▸ hdup) u hu
          simpa using this
        simp only [signup, hval, Bool.false_eq_true, if_false, hdup,
          if_true]
        rw [List.pairwise_append]
        refine ⟨hp, List.pairwise_singleton _ _, ?_⟩
        intro a ha b hb
        simp only [List.mem_singleton] at hb
        subst hb
        exact hfresh a ha
  · intro ⟨u, hu, hname⟩
    by_cases hval : (strFalsy username || strFalsy password) = true
    · simp [signup, hval]
    · have hdup : users.any (fun u => u.username == username.getD "") :=
        List.any_eq_true.mpr ⟨u, hu, by simp [hname]⟩
      simp [signup, hval, hdup]
  · intro uname pwd huser hpwd hun hpn hfresh
    subst huser
    subst hpwd
    have hval : (strFalsy (some uname) || strFalsy (some pwd)) = false := by
      simp [strFalsy, hun, hpn]
    have hdup : users.any (fun u => u.username == uname) = false :=
      List.any_eq_false.mpr (by
        intro u hu
        simpa using hfresh u hu)
    simp [signup, hval, hdup]

/-- Witness for C3 amended at concrete inputs: one stored user "a"; a
duplicate signup for "a" changes nothing, and a fresh signup for "b"
appends the new user and answers 201. -/
theorem c3_signup_unique_witness :
    ((signup signD [⟨"u1", "a", "p"⟩] (some "a") (some "q") "u2").users =
      [⟨"u1", "a", "p"⟩] ∧
     (signup signD [⟨"u1", "a", "p"⟩] (some "a") (some "q") "u2").wrote =
      false) ∧
    signup signD [⟨"u1", "a", "p"⟩] (some "b") (some "q") "u2" =
      ⟨201, Body.authOk (signD "u2" "b") "b",
        [⟨"u1", "a", "p"⟩] ++ [⟨"u2", "b", "q"⟩], true⟩ :=
  ⟨(c3_signup_unique signD [⟨"u1", "a", "p"⟩] (some "a") (some "q")
      "u2").2.1 ⟨⟨"u1", "a", "p"⟩, by decide⟩,
   (c3_signup_unique signD [⟨"u1", "a", "p"⟩] (some "b") (some "q")
      "u2").2.2 "b" "q" rfl rfl (by decide) (by decide) (by decide)⟩

/-- Counterexample to C4 as stated: with an empty users list and the login
request `{username: "", password: "x"}`, no stored user matches, yet the
response is 400, not 401 "invalid credentials". -/
theorem c4_counterexample :
    (∀ u ∈ ([] : List User), ¬(u.username = "" ∧ u.password = "x")) ∧
    (login signD [] (some "") (some "x")).status = 400 ∧
    (login signD [] (some "") (some "x")).status ≠ 401 := by
  decide

/-- C4 amended: for a non-empty username `u` and non-empty password `p`,
login answers 200 `{token, username}` exactly when some stored user has
username `u` and password `p`, answers 401 "invalid credentials" otherwise,
and in every case leaves the users list unchanged with no write. -/
theorem c4_login_credentials (sign : String → String → String)
    (users : List User) (u p : String) (hu : u ≠ "") (hp : p ≠ "") :
    (login sign users (some u) (some p)).users = users ∧
    (login sign users (some u) (some p)).wrote = false ∧
    ((∃ x ∈ users, x.username = u ∧ x.password = p) →
      (login sign users (some u) (some p)).status = 200 ∧
      ∃ tk, (login sign users (some u) (some p)).body = Body.authOk tk u) ∧
    ((∀ x ∈ users, ¬(x.username = u ∧ x.password = p)) →
      login sign users (some u) (some p) =
        ⟨401, Body.msg "invalid credentials", users, false⟩) := by
  have hval : (strFalsy (some u) || strFalsy (some p)) = false := by
    simp [strFalsy, hu, hp]
  refine ⟨?_, ?_, ?_, ?_⟩
  · cases hfind : users.find? (fun x => x.username == u && x.password == p)
      with
    | none => simp [login, hval, hfind]
    | some x => simp [login, hval, hfind]
  · cases hfind : users.find? (fun x => x.username == u && x.password == p)
      with
    | none => simp [login, hval, hfind]
    | some x => simp [login, hval, hfind]
  · intro ⟨x, hx, hxu, hxp⟩
    cases hfind : users.find? (fun x => x.username == u && x.password == p)
      with
    | none =>
      exfalso
      have := List.find?_eq_none.mp hfind x hx
      simp [hxu, hxp] at this
    | some y =>
      refine ⟨by simp [login, hval, hfind], ⟨sign y.id u, ?_⟩⟩
      simp [login, hval, hfind]
  · intro hnone
    have hfind :
        users.find? (fun x => x.username == u && x.password == p) = none :=
      List.find?_eq_none.mpr (by
        intro x hx
        have := hnone x hx
        simp only [Bool.and_eq_true, beq_iff_eq]
        intro hc
        exact this ⟨hc.1, hc.2⟩)
    simp [login, hval, hfind]

/-- Witness for C4 amended at concrete inputs: one stored user with
username "a" and password "p"; the matching login answers 200 with a token
and the mismatching one answers 401 "invalid credentials". -/
theorem c4_login_credentials_witness :
    (login signD [⟨"u1", "a", "p"⟩] (some "a") (some "p")).users =
      [⟨"u1", "a", "p"⟩] ∧
    (login signD [⟨"u1", "a", "p"⟩] (some "a") (some "p")).status = 200 ∧
    login signD [⟨"u1", "a", "p"⟩] (some "a") (some "q") =
      ⟨401, Body.msg "invalid credentials", [⟨"u1", "a", "p"⟩], false⟩ :=
  ⟨(c4_login_credentials signD [⟨"u1", "a", "p"⟩] "a" "p" (by decide)
      (by decide)).1,
   ((c4_login_credentials signD [⟨"u1", "a", "p"⟩] "a" "p" (by decide)
      (by decide)).2.2.1 ⟨⟨"u1", "a", "p"⟩, by decide, rfl, rfl⟩).1,
   (c4_login_credentials signD [⟨"u1", "a", "p"⟩] "a" "q" (by decide)
      (by decide)).2.2.2 (by decide)⟩

/-- C6: requests that fail local validation are answered 400 and leave the
persisted file content exactly as it was, since validation runs before any
file access: POST /todos with a missing or empty text, and signup or login
with a missing or empty username or password. -/
theorem c6_validation_400 (parse : String → Option (List Todo))
    (parseU : String → Option (List User)) (serT : List Todo → String)
    (serU : List User → String) (sign : String → String → String)
    (tfile ufile : Option String) (text username password : Option String)
    (newId : String) :
    (strFalsy text = true →
      postTodosFile parse serT tfile text newId =
        (400, Body.msg "Todo text is required", tfile)) ∧
    ((strFalsy username || strFalsy password) = true →
      signupFile parseU serU sign ufile username password newId =
        (400, Body.msg "username and password are required", ufile) ∧
      loginFile parseU sign ufile username password =
        (400, Body.msg "username and password are required", ufile)) := by
  constructor
  · intro h
    simp [postTodosFile, h]
  · intro h
    exact ⟨by simp [signupFile, h], by simp [loginFile, h]⟩

/-- Witness for C6 at concrete inputs: a missing text field and a missing
username, against concrete file contents that remain untouched. -/
theorem c6_validation_400_witness :
    strFalsy none = true ∧
    postTodosFile parseFailT serializeT (some "afile") none "i" =
      (400, Body.msg "Todo text is required", some "afile") ∧
    signupFile parseFailU serializeU signD (some "bfile") none (some "p")
      "i" =
      (400, Body.msg "username and password are required", some "bfile") ∧
    loginFile parseFailU signD (some "bfile") none (some "p") =
      (400, Body.msg "username and password are required", some "bfile") :=
  ⟨by decide,
   (c6_validation_400 parseFailT parseFailU serializeT serializeU signD
      (some "afile") (some "bfile") none none (some "p") "i").1 (by decide),
   ((c6_validation_400 parseFailT parseFailU serializeT serializeU signD
      (some "afile") (some "bfile") none none (some "p") "i").2
      (by decide)).1,
   ((c6_validation_400 parseFailT parseFailU serializeT serializeU signD
      (some "afile") (some "bfile") none none (some "p") "i").2
      (by decide)).2⟩

/-- C7: reading the todos or users store never throws, and on an absent
file creates "[]" and returns the empty list, on a blank file returns the
empty list leaving the content alone, and on content that the JSON parse
rejects returns the empty list and rewrites the file to "[]". -/
theorem c7_read_resets_corrupt (parse : String → Option (List Todo))
    (parseU : String → Option (List User)) (s : String) :
    readTodos parse none = ([], some "[]") ∧
    readUsers parseU none = ([], some "[]") ∧
    (strTrim s = "" →
      readTodos parse (some s) = ([], some s) ∧
      readUsers parseU (some s) = ([], some s)) ∧
    (strTrim s ≠ "" → parse s = none →
      readTodos parse (some s) = ([], some "[]")) ∧
    (strTrim s ≠ "" → parseU s = none →
      readUsers parseU (some s) = ([], some "[]")) := by
  refine ⟨rfl, rfl, ?_, ?_, ?_⟩
  · intro h
    exact ⟨by simp [readTodos, h], by simp [readUsers, h]⟩
  · intro h hp
    simp [readTodos, h, hp]
  · intro h hp
    simp [readUsers, h, hp]

/-- Witness for C7 at concrete inputs: a blank file " " is returned as the
empty list untouched, and the corrupt content "x" (rejected by the concrete
failing parse) is reset to "[]" for both stores. -/
theorem c7_read_resets_corrupt_witness :
    strTrim " " = "" ∧ strTrim "x" ≠ "" ∧
    parseFailT "x" = none ∧ parseFailU "x" = none ∧
    readTodos parseFailT none = ([], some "[]") ∧
    readTodos parseFailT (some " ") = ([], some " ") ∧
    readUsers parseFailU (some " ") = ([], some " ") ∧
    readTodos parseFailT (some "x") = ([], some "[]") ∧
    readUsers parseFailU (some "x") = ([], some "[]") :=
  ⟨by decide, by decide, rfl, rfl,
   (c7_read_resets_corrupt parseFailT parseFailU "x").1,
   ((c7_read_resets_corrupt parseFailT parseFailU " ").2.2.1 (by decide)).1,
   ((c7_read_resets_corrupt parseFailT parseFailU " ").2.2.1 (by decide)).2,
   (c7_read_resets_corrupt parseFailT parseFailU "x").2.2.2.1 (by decide)
     rfl,
   (c7_read_resets_corrupt parseFailT parseFailU "x").2.2.2.2 (by decide)
     rfl⟩

/-- C8: POST /todos appends the created todo, with completed false, at the
end of the stored list, leaving every previously stored todo unchanged in
its original position; and no todo operation ever introduces anything
beyond the stored todos except the fresh todo with completed false, so no
operation completes or edits an existing todo. -/
theorem c8_append_only_frame (todos : List Todo) (text : Option String)
    (t newId id : String) :
    (t ≠ "" → (postTodos todos (some t) newId).todos =
      todos ++ [⟨newId, t, false⟩]) ∧
    (∀ x ∈ (postTodos todos text newId).todos,
      x ∈ todos ∨
        (x.completed = false ∧ x = ⟨newId, text.getD "", false⟩)) ∧
    ((getTodos todos).todos = todos) ∧
    (∀ x ∈ (deleteTodo todos id).todos, x ∈ todos) := by
  refine ⟨?_, ?_, rfl, ?_⟩
  · intro ht
    have hfalsy : strFalsy (some t) = false := by
      simp [strFalsy, ht]
    simp [postTodos, hfalsy]
  · intro x hx
    by_cases hfalsy : strFalsy text = true
    · simp only [postTodos, hfalsy, if_true] at hx
      exact Or.inl hx
    · simp only [postTodos, hfalsy, if_false] at hx
      rcases List.mem_append.mp hx with hx | hx
      · exact Or.inl hx
      · rw [List.mem_singleton] at hx
        subst hx
        exact Or.inr ⟨rfl, rfl⟩
  · intro x hx
    by_cases hc : (todos.filter (fun t => t.id != id)).length = todos.length
    · simpa [deleteTodo, hc] using hx
    · simp only [deleteTodo, if_neg hc] at hx
      exact List.mem_of_mem_filter hx

/-- Witness for C8 at concrete inputs: appending "y" to a one-todo store,
and membership frames for the post and delete results. -/
theorem c8_append_only_frame_witness :
    (postTodos [⟨"a", "x", false⟩] (some "y") "i").todos =
      [⟨"a", "x", false⟩] ++ [⟨"i", "y", false⟩] ∧
    (∀ x ∈ (postTodos [⟨"a", "x", false⟩] (some "y") "i").todos,
      x ∈ [⟨"a", "x", false⟩] ∨
        (x.completed = false ∧ x = ⟨"i", "y", false⟩)) ∧
    (∀ x ∈ (deleteTodo [⟨"a", "x", false⟩] "a").todos,
      x ∈ [⟨"a", "x", false⟩]) :=
  ⟨(c8_append_only_frame [⟨"a", "x", false⟩] (some "y") "y" "i" "a").1
     (by decide),
   (c8_append_only_frame [⟨"a", "x", false⟩] (some "y") "y" "i" "a").2.1,
   (c8_append_only_frame [⟨"a", "x", false⟩] (some "y") "y" "i"
      "a").2.2.2⟩

/-- C9: a successful DELETE (status 204) removes every stored todo carrying
the requested id, not just the first: the resulting list is exactly the
filter of the original by id mismatch, contains no todo with that id, and
keeps the surviving todos in their original relative order. -/
theorem c9_delete_filters_all (todos : List Todo) (id : String)
    (h : (deleteTodo todos id).status = 204) :
    (deleteTodo todos id).todos = todos.filter (fun t => t.id != id) ∧
    (∀ t ∈ (deleteTodo todos id).todos, t.id ≠ id) ∧
    List.Sublist (deleteTodo todos id).todos todos := by
  by_cases hc : (todos.filter (fun t => t.id != id)).length = todos.length
  · exfalso
    simp [deleteTodo, hc] at h
  · have heq : (deleteTodo todos id).todos =
        todos.filter (fun t => t.id != id) := by
      simp [deleteTodo, hc]
    refine ⟨heq, ?_, ?_⟩
    · intro t ht
      rw [heq] at ht
      have := List.of_mem_filter ht
      simpa using this
    · rw [heq]
      exact List.filter_sublist todos

/-- Witness for C9 at a concrete input: a store with two todos of id "a"
and one of id "b"; deleting "a" removes both duplicates and keeps "b". -/
theorem c9_delete_filters_all_witness :
    (deleteTodo [⟨"a", "x", false⟩, ⟨"a", "y", true⟩, ⟨"b", "z", false⟩]
      "a").status = 204 ∧
    ((deleteTodo [⟨"a", "x", false⟩, ⟨"a", "y", true⟩, ⟨"b", "z", false⟩]
        "a").todos =
      [⟨"a", "x", false⟩, ⟨"a", "y", true⟩,
        ⟨"b", "z", false⟩].filter (fun t => t.id != "a") ∧
     (∀ t ∈ (deleteTodo [⟨"a", "x", false⟩, ⟨"a", "y", true⟩,
        ⟨"b", "z", false⟩] "a").todos, t.id ≠ "a") ∧
     List.Sublist
       (deleteTodo [⟨"a", "x", false⟩, ⟨"a", "y", true⟩,
         ⟨"b", "z", false⟩] "a").todos
       [⟨"a", "x", false⟩, ⟨"a", "y", true⟩, ⟨"b", "z", false⟩]) :=
  ⟨by decide,
   c9_delete_filters_all
     [⟨"a", "x", false⟩, ⟨"a", "y", true⟩, ⟨"b", "z", false⟩] "a"
     (by decide)⟩

/-- C10: whenever the auth precondition of src/index.js is satisfied, the
todo routes of src/index.js and the corresponding handlers of
src/unnamed/part_000 produce the same status, body and resulting todos
state, given the same generated id, and their readTodos functions agree on
every parse function and every file content. -/
theorem c10_two_files_agree (verify : String → Bool)
    (header : Option String) (todos : List Todo) (text : Option String)
    (newId id : String) (hauth : auth verify header = none) :
    getTodosRoute verify header todos = Part000.getTodos todos ∧
    postTodosRoute verify header todos text newId =
      Part000.postTodos todos text newId ∧
    deleteTodoRoute verify header todos id = Part000.deleteTodo todos id ∧
    (∀ parse : String → Option (List Todo), ∀ file : Option String,
      readTodos parse file = Part000.readTodos parse file) := by
  refine ⟨?_, ?_, ?_, ?_⟩
  · simp only [getTodosRoute, hauth]
    rfl
  · simp only [postTodosRoute, hauth]
    rfl
  · simp only [deleteTodoRoute, hauth]
    rfl
  · intro parse file
    cases file with
    | none => rfl
    | some s => rfl

/-- Witness for C10 at concrete inputs: an all-accepting verifier with a
well-formed bearer header, a one-todo store, and concrete post, delete and
read arguments. -/
theorem c10_two_files_agree_witness :
    auth verifyAll (some "Bearer tk") = none ∧
    getTodosRoute verifyAll (some "Bearer tk") [⟨"a", "x", false⟩] =
      Part000.getTodos [⟨"a", "x", false⟩] ∧
    postTodosRoute verifyAll (some "Bearer tk") [⟨"a", "x", false⟩]
      (some "y") "i" = Part000.postTodos [⟨"a", "x", false⟩] (some "y")
      "i" ∧
    deleteTodoRoute verifyAll (some "Bearer tk") [⟨"a", "x", false⟩] "a" =
      Part000.deleteTodo [⟨"a", "x", false⟩] "a" ∧
    readTodos parseFailT (some "x") =
      Part000.readTodos parseFailT (some "x") :=
  ⟨by decide,
   (c10_two_files_agree verifyAll (some "Bearer tk") [⟨"a", "x", false⟩]
      (some "y") "i" "a" (by decide)).1,
   (c10_two_files_agree verifyAll (some "Bearer tk") [⟨"a", "x", false⟩]
      (some "y") "i" "a" (by decide)).2.1,
   (c10_two_files_agree verifyAll (some "Bearer tk") [⟨"a", "x", false⟩]
      (some "y") "i" "a" (by decide)).2.2.1,
   (c10_two_files_agree verifyAll (some "Bearer tk") [⟨"a", "x", false⟩]
      (some "y") "i" "a" (by decide)).2.2.2 parseFailT (some "x")⟩
